import Mathlib

/-!
Shallow embedding of the wizzzey-store-admin client pages, with theorems
checking the repository's specification claims against the code.

Sources embedded:
- `src/app/(admin)/brands/[id]/edit/page.tsx` — `checkSoftStock`, the
  daily-orders select-all column header, and `handleSubmitSelected`;
- `src/app/(admin)/products/components/ProductForm.tsx` — the zod
  `productSchema`, the create-branch `FormData` construction, the
  update-branch upload/merge, the products page `fetchData` and
  `handleConfirmDelete`.

JavaScript values are modelled as follows: `string | undefined` becomes
`Option String`, numbers (used here only as prices, stock counts and
quantities) become `ℚ` or `Int`, the `{type, data?, message?}` response
envelope becomes explicit structures, thrown exceptions become `Except`
or explicit outcome records, and React state updates become functions
from old state to new state plus an effects record (toasts shown,
network calls issued).
-/

/-- The `type` discriminant of the backend response envelope. -/
inductive RespType
  | OK
  | ERROR
deriving DecidableEq, Repr

/-- Response envelope carrying no payload beyond the discriminant and an
optional message (used for delete and submit calls). -/
structure Envelope where
  type : RespType
  message : Option String := none
deriving DecidableEq, Repr

/-! ## Soft inventory and stock lookup (brands/[id]/edit/page.tsx) -/

/-- `SoftInventoryItem`: sku, size, optional color, quantity. -/
structure SoftInventoryItem where
  sku : String
  size : String
  color : Option String
  quantity : Int
deriving DecidableEq, Repr

/-- The predicate inlined in `checkSoftStock`'s `softInventory.find(...)`:
`si.sku === sku && si.size === size && (color ? si.color?.toLowerCase()
=== color.toLowerCase() : true)`.  A JS `color` of `undefined` or `""` is
falsy, so the color clause is skipped for those; `si.color?.toLowerCase()`
is `undefined` when `si.color` is absent, which compares unequal to any
string. -/
def lineMatches (sku size : String) (color : Option String) (si : SoftInventoryItem) : Bool :=
  si.sku == sku && si.size == size &&
    (match color with
     | none => true
     | some c =>
       if c.isEmpty then true
       else
         match si.color with
         | some sc => sc.toLower == c.toLower
         | none => false)

/-- `checkSoftStock`: find the first inventory entry matching the line's
sku, size and (truthy) color, and report whether its quantity is
positive; no matching entry defaults to out of stock (`false`). -/
def checkSoftStock (sku size : String) (color : Option String)
    (softInventory : List SoftInventoryItem) : Bool :=
  match softInventory.find? (lineMatches sku size color) with
  | some item => decide (item.quantity > 0)
  | none => false

/-! ## Daily orders: selection and submission -/

/-- `BrandDailyOrderItem`: id, sku, optional color, size, quantity. -/
structure BrandDailyOrderItem where
  id : String
  sku : String
  color : Option String
  size : String
  quantity : Int
deriving DecidableEq, Repr

/-- The `onCheckedChange` handler of the select-all header checkbox: when
checked it builds a fresh selection mapping exactly the out-of-stock row
ids to `true`; when unchecked it sets the empty selection.  Rows are the
table's (filtered) daily-order rows; the table's row id is the order's
`id`. -/
def selectAllNewSelection (value : Bool) (rows : List BrandDailyOrderItem)
    (softInventory : List SoftInventoryItem) : List (String × Bool) :=
  let outOfStockRowIds :=
    (rows.filter (fun row => !(checkSoftStock row.sku row.size row.color softInventory))).map
      (fun row => row.id)
  if value then outOfStockRowIds.map (fun id => (id, true)) else []

/-- `Object.keys(rowSelection).filter(id => rowSelection[id])` over the
row-selection record, modelled as an association list. -/
def selectedOrderIds (rowSelection : List (String × Bool)) : List String :=
  (rowSelection.filter (fun p => p.2)).map (fun p => p.1)

/-- `dailyOrders.filter(order => selectedOrderIds.includes(order.id))`. -/
def ordersToSubmit (rowSelection : List (String × Bool))
    (dailyOrders : List BrandDailyOrderItem) : List BrandDailyOrderItem :=
  dailyOrders.filter (fun order => (selectedOrderIds rowSelection).contains order.id)

/-- The client-side re-check: keep only the selected orders that the
snapshot reports out of stock. -/
def actualOutOfStockOrders (rowSelection : List (String × Bool))
    (dailyOrders : List BrandDailyOrderItem)
    (softInventory : List SoftInventoryItem) : List BrandDailyOrderItem :=
  (ordersToSubmit rowSelection dailyOrders).filter
    (fun order => !(checkSoftStock order.sku order.size order.color softInventory))

/-- Effects of `handleSubmitSelected` up to the point where the network
call is (or is not) issued: `notice` is the toast title shown when the
handler returns early, `clearsSelection` records a `setRowSelection({})`
on an early return, and `call` is the list of order ids passed to
`submitBrandOrdersToPlaced` (or `none` when no call is made). -/
structure SubmitEffects where
  notice : Option String
  clearsSelection : Bool
  call : Option (List String)
deriving DecidableEq, Repr

/-- `handleSubmitSelected`: early-return with a notice when the selection
matches no orders; early-return, clearing the selection, when the
re-check leaves nothing out of stock; otherwise call
`submitBrandOrdersToPlaced` with the out-of-stock order ids. -/
def handleSubmitSelected (rowSelection : List (String × Bool))
    (dailyOrders : List BrandDailyOrderItem)
    (softInventory : List SoftInventoryItem) : SubmitEffects :=
  if (ordersToSubmit rowSelection dailyOrders).length = 0 then
    { notice := some ("No Orders Selected"), clearsSelection := false, call := none }
  else if (actualOutOfStockOrders rowSelection dailyOrders softInventory).length = 0 then
    { notice := some ("No Out-of-Stock Orders"), clearsSelection := true, call := none }
  else
    { notice := none, clearsSelection := false,
      call := some ((actualOutOfStockOrders rowSelection dailyOrders softInventory).map
        (fun o => o.id)) }

/-! ## Product form (products/components/ProductForm.tsx) -/

/-- The `status` enum of `productSchema`. -/
inductive ProductStatus
  | draft
  | active
  | archived
  | out_of_stock
deriving DecidableEq, Repr

/-- Rendering of a `ProductStatus` back to its wire string. -/
def statusString : ProductStatus → String
  | ProductStatus.draft => "draft"
  | ProductStatus.active => "active"
  | ProductStatus.archived => "archived"
  | ProductStatus.out_of_stock => "out_of_stock"

/-- Parse of the `z.enum(['draft','active','archived','out_of_stock'])`
status field. -/
def parseStatus (s : String) : Option ProductStatus :=
  if s == ("draft") then some ProductStatus.draft
  else if s == ("active") then some ProductStatus.active
  else if s == ("archived") then some ProductStatus.archived
  else if s == ("out_of_stock") then some ProductStatus.out_of_stock
  else none

/-- `ProductFormValues`, the output type of `productSchema` after
parsing: optional fields keep `Option`, defaulted fields are filled. -/
structure ProductFormValues where
  name : String
  description : Option String
  price : ℚ
  categoryId : String
  brandId : Option String
  sku : Option String
  stock : ℚ
  inStock : Bool
  status : ProductStatus
  isFeatured : Bool
  images : List String
deriving DecidableEq, Repr

/-- Raw form input as handed to `productSchema.parse`: text inputs are
strings (in particular the coerced `price` and `stock` fields), optional
fields may be absent. -/
structure RawProductInput where
  name : String
  description : Option String := none
  price : String
  categoryId : String
  brandId : Option String := none
  sku : Option String := none
  stock : Option String := none
  inStock : Option Bool := none
  status : Option String := none
  isFeatured : Option Bool := none
  images : Option (List String) := none
deriving DecidableEq, Repr

/-- Numeric value of a decimal digit character. -/
def digitVal (c : Char) : Option Nat :=
  if c == ('0') then some 0
  else if c == ('1') then some 1
  else if c == ('2') then some 2
  else if c == ('3') then some 3
  else if c == ('4') then some 4
  else if c == ('5') then some 5
  else if c == ('6') then some 6
  else if c == ('7') then some 7
  else if c == ('8') then some 8
  else if c == ('9') then some 9
  else none

/-- Fold a digit list into a natural number, failing on a non-digit. -/
def parseDigits : List Char → Option Nat → Option Nat
  | [], acc => acc
  | c :: cs, acc =>
    match digitVal c with
    | some d => parseDigits cs (some ((acc.getD 0) * 10 + d))
    | none => none

/-- Powers of ten, for placing the fractional part. -/
def pow10 : Nat → Nat
  | 0 => 1
  | n + 1 => 10 * pow10 n

/-- Decimal-numeral fragment of the JS `Number(...)` coercion performed
by `z.coerce.number()`: an optional sign, digits, and an optional
fractional part, so that `d₁…dₘ.f₁…fₖ` denotes the exact rational
`(d₁…dₘf₁…fₖ) / 10^k`.  This covers every numeric string produced by the
form's `<Input type="number">` fields. -/
def parseDecimal (s : String) : Option ℚ :=
  let (neg, body) :=
    match s.data with
    | c :: rest =>
      if c == ('-') then (true, rest)
      else if c == ('+') then (false, rest)
      else (false, s.data)
    | [] => (false, s.data)
  let mag : Option ℚ :=
    match body.splitOn ('.') with
    | [intPart] => (parseDigits intPart none).map (fun n => mkRat (Int.ofNat n) 1)
    | [intPart, fracPart] =>
      match parseDigits intPart none, parseDigits fracPart none with
      | some n, some f =>
        some (mkRat (Int.ofNat (n * pow10 fracPart.length + f)) (pow10 fracPart.length))
      | _, _ => none
    | _ => none
  mag.map (fun q => if neg then -q else q)

/-- Stand-in for zod's `z.string().url()` check on image entries (the
exact URL grammar is a zod library detail; no claim exercises it). -/
def isValidUrl (s : String) : Bool :=
  (s.take 7 == ("http://")) || (s.take 8 == ("https://"))

/-- `productSchema.parse`: name at least 2 characters; price coerced to a
number that must be ≥ 0; category required (at least 1 character);
brandId and sku optional; stock coerced to a non-negative integer,
defaulting to 0; inStock defaults to `true`; status defaults to `draft`;
isFeatured defaults to `false`; images default to `[]`, each a URL.
Returns `none` when any field fails validation. -/
def productSchemaParse (r : RawProductInput) : Option ProductFormValues := do
  let name ← if 2 ≤ r.name.length then some r.name else none
  let price ← parseDecimal r.price
  if 0 ≤ price then pure () else none
  let categoryId ← if 1 ≤ r.categoryId.length then some r.categoryId else none
  let stock ←
    match r.stock with
    | none => some (0 : ℚ)
    | some s => do
      let q ← parseDecimal s
      if q.den = 1 ∧ 0 ≤ q then some q else none
  let status ←
    match r.status with
    | none => some ProductStatus.draft
    | some s => parseStatus s
  let images ←
    match r.images with
    | none => some ([] : List String)
    | some xs => if xs.all isValidUrl then some xs else none
  some { name := name, description := r.description, price := price,
         categoryId := categoryId, brandId := r.brandId, sku := r.sku,
         stock := stock, inStock := r.inStock.getD true, status := status,
         isFeatured := r.isFeatured.getD false, images := images }

/-! ## Create branch: multipart FormData construction -/

/-- A JS value as it appears in `Object.entries(productPayload)`. -/
inductive JsValue
  | str (s : String)
  | num (q : ℚ)
  | jsbool (b : Bool)
  | strArr (xs : List String)
  | undef
deriving DecidableEq, Repr

/-- One entry of the multipart `FormData`: a text field (its value kept
as the pre-`String(...)` JS value, which the claims never inspect) or an
appended file blob, identified by its name. -/
inductive FormEntry
  | field (key : String) (value : JsValue)
  | fileEntry (key : String) (fileName : String)
deriving DecidableEq, Repr

/-- The key under which a `FormData` entry was appended. -/
def entryKey : FormEntry → String
  | FormEntry.field k _ => k
  | FormEntry.fileEntry k _ => k

/-- The entries of a `FormData` appended under a given key. -/
def entriesWithKey (fd : List FormEntry) (k : String) : List FormEntry :=
  fd.filter (fun e => entryKey e == k)

/-- `Object.entries({...values})` for a parsed product payload, in the
schema's key order; absent optional fields appear as `undef` (skipped by
the append loop, exactly as `value !== undefined` skips them). -/
def payloadEntries (v : ProductFormValues) : List (String × JsValue) :=
  [(("name"), JsValue.str v.name),
   (("description"), (v.description.map JsValue.str).getD JsValue.undef),
   (("price"), JsValue.num v.price),
   (("categoryId"), JsValue.str v.categoryId),
   (("brandId"), (v.brandId.map JsValue.str).getD JsValue.undef),
   (("sku"), (v.sku.map JsValue.str).getD JsValue.undef),
   (("stock"), JsValue.num v.stock),
   (("inStock"), JsValue.jsbool v.inStock),
   (("status"), JsValue.str (statusString v.status)),
   (("isFeatured"), JsValue.jsbool v.isFeatured),
   (("images"), JsValue.strArr v.images)]

/-- The `Object.entries(productPayload).forEach` append loop of the
create branch: the `images` key is skipped (`return`), `undefined`/`null`
values are skipped, arrays are appended item by item under the same key,
and every other value is appended once under its key. -/
def formDataEntries : List (String × JsValue) → List FormEntry
  | [] => []
  | (k, v) :: rest =>
    (if k == ("images") then []
     else
       match v with
       | JsValue.undef => []
       | JsValue.strArr xs => xs.map (fun x => FormEntry.field k (JsValue.str x))
       | v => [FormEntry.field k v]) ++ formDataEntries rest

/-- The full create-branch `FormData`: serialized payload fields followed
by each newly selected file appended under the fixed key `files`. -/
def createFormData (v : ProductFormValues) (newImageFiles : List String) : List FormEntry :=
  formDataEntries (payloadEntries v) ++
    newImageFiles.map (fun f => FormEntry.fileEntry ("files") f)

/-! ## Update branch: upload then merge -/

/-- Response of `uploadFiles`: envelope type plus `data?.urls`. -/
structure UploadResponse where
  type : RespType
  urls : Option (List String) := none
  message : Option String := none
deriving DecidableEq, Repr

/-- Effects of the update branch of `onSubmit` (including the
catch/finally): whether `uploadFiles` was called, the payload passed to
`updateProduct` (`none` when the thrown upload error prevents the call),
whether the catch-block error toast fired, and whether the success path
navigated away (on failure the form stays populated for retry). -/
structure SubmitUpdateEffects where
  uploadCalled : Bool
  updateCall : Option ProductFormValues
  errorToast : Bool
  navigatedAway : Bool
deriving DecidableEq, Repr

/-- The update branch of `onSubmit`: when new files are present, call
`uploadFiles`; unless the response is `OK` and carries a `urls` list,
throw (caught below: error toast, no update call, form retained).
Otherwise set `payload.images` to the retained existing URLs followed by
the uploaded URLs (empty when there was nothing to upload) and call
`updateProduct`; a non-`OK` update response also shows an error toast and
keeps the form. -/
def onSubmitUpdate (values : ProductFormValues) (existingImageUrls : List String)
    (newImageFiles : List String) (uploadResp : UploadResponse)
    (updateResp : Envelope) : SubmitUpdateEffects :=
  if 0 < newImageFiles.length then
    match uploadResp.type, uploadResp.urls with
    | RespType.OK, some uploadedNewUrls =>
      let payload := { values with images := existingImageUrls ++ uploadedNewUrls }
      if updateResp.type = RespType.OK then
        { uploadCalled := true, updateCall := some payload,
          errorToast := false, navigatedAway := true }
      else
        { uploadCalled := true, updateCall := some payload,
          errorToast := true, navigatedAway := false }
    | _, _ =>
      { uploadCalled := true, updateCall := none,
        errorToast := true, navigatedAway := false }
  else
    let payload := { values with images := existingImageUrls ++ [] }
    if updateResp.type = RespType.OK then
      { uploadCalled := false, updateCall := some payload,
        errorToast := false, navigatedAway := true }
    else
      { uploadCalled := false, updateCall := some payload,
        errorToast := true, navigatedAway := false }

/-! ## Products list page (ProductsPage in ProductForm.tsx bundle) -/

/-- `Product` as rendered in the list (fields mirrored from the backend
record). -/
structure Product where
  id : String
  name : String
  description : Option String := none
  price : ℚ := 0
  categoryId : String := ("")
  brandId : Option String := none
  sku : Option String := none
  stock : ℚ := 0
  inStock : Bool := true
  status : ProductStatus := ProductStatus.draft
  isFeatured : Bool := false
  images : List String := []
deriving DecidableEq, Repr

/-- The client-held pagination triple. -/
structure Pagination where
  pageIndex : Nat
  pageSize : Nat
  pageCount : Nat
deriving DecidableEq, Repr

/-- The `pagination` member of the response envelope. -/
structure ServerPagination where
  totalPages : Nat
  page : Nat
  pageSize : Nat
deriving DecidableEq, Repr

/-- State owned by the products page: rendered rows plus pagination. -/
structure ProductsPageState where
  products : List Product
  pagination : Pagination
deriving DecidableEq, Repr

/-- Response of `getProducts`: envelope type, `data?.products`, optional
message and optional `pagination`. -/
structure ProductsListResponse where
  type : RespType
  products : Option (List Product) := none
  message : Option String := none
  pagination : Option ServerPagination := none
deriving DecidableEq, Repr

/-- One resolution of the products page `fetchData`: on an `OK` response
carrying products, store them, and when the response also carries
pagination overwrite only `pageCount` with the server's `totalPages`
(`setPagination(prev => ({...prev, pageCount: totalPages}))`); any other
response shows an error toast (the returned `Bool`) and leaves the state
alone. -/
def productsFetchStep (resp : ProductsListResponse)
    (st : ProductsPageState) : ProductsPageState × Bool :=
  match resp.type, resp.products with
  | RespType.OK, some ps =>
    let st1 := { st with products := ps }
    match resp.pagination with
    | some p =>
      ({ st1 with pagination := { st1.pagination with pageCount := p.totalPages } }, false)
    | none => (st1, false)
  | _, _ => (st, true)

/-- Effects of `handleConfirmDelete`: toasts shown, the `getProducts`
arguments of the triggered refetch (`none` when no refetch), the page
state as the handler leaves it, and the dialog bookkeeping reset in the
`finally` block. -/
structure DeleteEffects where
  successToast : Bool
  errorToast : Bool
  refetch : Option (Nat × Nat)
  state : ProductsPageState
  dialogOpen : Bool
  itemToDeleteId : Option String
deriving DecidableEq, Repr

/-- `handleConfirmDelete`: a missing `itemToDeleteId` returns before the
try block (nothing happens); otherwise the delete call's outcome — an
envelope or a thrown error — selects between refetching the current page
(`getProducts(pageIndex + 1, pageSize)`) after a success toast, and an
error toast with no refetch; the handler itself never writes `products`
or `pagination`, and the `finally` block closes the dialog and clears
the pending id. -/
def handleConfirmDelete (itemToDeleteId : Option String)
    (deleteCall : Except String Envelope) (st : ProductsPageState)
    (dialogOpen : Bool) : DeleteEffects :=
  match itemToDeleteId with
  | none =>
    { successToast := false, errorToast := false, refetch := none,
      state := st, dialogOpen := dialogOpen, itemToDeleteId := none }
  | some _ =>
    match deleteCall with
    | Except.ok resp =>
      if resp.type = RespType.OK then
        { successToast := true, errorToast := false,
          refetch := some (st.pagination.pageIndex + 1, st.pagination.pageSize),
          state := st, dialogOpen := false, itemToDeleteId := none }
      else
        { successToast := false, errorToast := true, refetch := none,
          state := st, dialogOpen := false, itemToDeleteId := none }
    | Except.error _ =>
      { successToast := false, errorToast := true, refetch := none,
        state := st, dialogOpen := false, itemToDeleteId := none }

/-! ## Helper lemmas -/

/-- `Array.prototype.find` keeps the first match: `find?` agrees with the
head of the filtered list. -/
theorem find?_eq_head?_filter {α : Type} (p : α → Bool) (l : List α) :
    l.find? p = (l.filter p).head? := by
  induction l with
  | nil => rfl
  | cons hd tl ih =>
    by_cases h : p hd
    · simp [List.find?_cons, List.filter_cons, h]
    · rw [List.find?_cons_of_neg tl h, List.filter_cons_of_neg h]
      exact ih

/-! ## C1: checkSoftStock against its specification -/

/-- Inventory snapshot on which the claimed existential reading of
`checkSoftStock` diverges from the code: the first entry matching the
line has quantity 0, a later matching entry has quantity 5. -/
def c1Snapshot : List SoftInventoryItem :=
  [{ sku := ("A1"), size := ("M"), color := none, quantity := 0 },
   { sku := ("A1"), size := ("M"), color := none, quantity := 5 }]

/-- C1 counterexample: for the line (sku "A1", size "M", no color) and
`c1Snapshot`, an entry with equal sku and size and positive quantity
exists (the second one), yet `checkSoftStock` returns `false`, because
`find` stops at the first matching entry, whose quantity is 0.  So the
claimed "true iff such an entry exists" equivalence fails. -/
theorem checkSoftStock_exists_counterexample :
    ¬ (checkSoftStock ("A1") ("M") none c1Snapshot = true ↔
        ∃ si ∈ c1Snapshot, si.sku = ("A1") ∧ si.size = ("M") ∧ si.quantity > 0) := by
  decide

/-- C1 (amended): `checkSoftStock` returns `true` iff the FIRST snapshot
entry matching the line's sku and size — and its color,
case-insensitively, when the line's color is specified and non-empty —
exists and has quantity > 0; otherwise it returns `false`. -/
theorem checkSoftStock_first_match_iff (sku size : String) (color : Option String)
    (inv : List SoftInventoryItem) :
    checkSoftStock sku size color inv = true ↔
      ∃ item, (inv.filter (lineMatches sku size color)).head? = some item ∧
        item.quantity > 0 := by
  unfold checkSoftStock
  rw [find?_eq_head?_filter]
  cases h : (inv.filter (lineMatches sku size color)).head? with
  | none => simp
  | some item => simp

/-! ## C2: select-all header checkbox -/

/-- C2: every key of the selection produced by the select-all header
handler is mapped to `true` and is the id of a row that `checkSoftStock`
reports out of stock (so no in-stock row is ever selected), and an
unchecked header yields the empty selection. -/
theorem selectAll_only_out_of_stock (value : Bool) (rows : List BrandDailyOrderItem)
    (inv : List SoftInventoryItem) :
    (∀ p ∈ selectAllNewSelection value rows inv,
        p.2 = true ∧ ∃ o ∈ rows, o.id = p.1 ∧
          checkSoftStock o.sku o.size o.color inv = false) ∧
    selectAllNewSelection false rows inv = [] := by
  constructor
  · intro p hp
    cases value with
    | false => simp [selectAllNewSelection] at hp
    | true =>
      simp only [selectAllNewSelection, if_pos, List.mem_map, List.mem_filter] at hp
      obtain ⟨id, ⟨⟨o, ⟨⟨ho, hstock⟩, hid⟩⟩, hpair⟩⟩ := hp
      subst hpair
      refine ⟨rfl, o, ho, hid, ?_⟩
      simpa using hstock
  · simp [selectAllNewSelection]

/-- C2 witness: with a single out-of-stock row (empty snapshot, so the
lookup defaults to out of stock) the checked header selects it, and the
theorem's per-entry guarantee holds at that entry. -/
theorem selectAll_only_out_of_stock_spot :
    ((("o1"), true).2 = true ∧
      ∃ o ∈ ([{ id := ("o1"), sku := ("A1"), color := none, size := ("M"),
                quantity := 1 }] : List BrandDailyOrderItem),
        o.id = (("o1"), true).1 ∧ checkSoftStock o.sku o.size o.color [] = false) ∧
    selectAllNewSelection false
      [{ id := ("o1"), sku := ("A1"), color := none, size := ("M"), quantity := 1 }] [] = [] := by
  have h := selectAll_only_out_of_stock true
    [{ id := ("o1"), sku := ("A1"), color := none, size := ("M"), quantity := 1 }] []
  have h0 := selectAll_only_out_of_stock false
    [{ id := ("o1"), sku := ("A1"), color := none, size := ("M"), quantity := 1 }] []
  exact ⟨h.1 ((("o1"), true)) (by decide), h0.2⟩

/-! ## C3: submitting an empty selection -/

/-- C3: when the selected ids match no order in the current daily-orders
list, `handleSubmitSelected` shows the "No Orders Selected" notice and
returns without calling `submitBrandOrdersToPlaced`. -/
theorem handleSubmitSelected_no_match (sel : List (String × Bool))
    (orders : List BrandDailyOrderItem) (inv : List SoftInventoryItem)
    (h : ordersToSubmit sel orders = []) :
    handleSubmitSelected sel orders inv =
      { notice := some ("No Orders Selected"), clearsSelection := false, call := none } := by
  unfold handleSubmitSelected
  simp [h]

/-- C3 witness: a selection whose id matches no order triggers the
early return. -/
theorem handleSubmitSelected_no_match_spot :
    handleSubmitSelected [(("ghost"), true)]
      [{ id := ("o1"), sku := ("A1"), color := none, size := ("M"), quantity := 1 }] [] =
      { notice := some ("No Orders Selected"), clearsSelection := false, call := none } :=
  handleSubmitSelected_no_match [(("ghost"), true)]
    [{ id := ("o1"), sku := ("A1"), color := none, size := ("M"), quantity := 1 }] []
    (by decide)

/-! ## C9: submit handler invariants -/

/-- C9: whenever `handleSubmitSelected` issues the network call, the ids
passed are a non-empty list of ids of orders that `checkSoftStock`
reports out of stock (in-stock selections are filtered out by the
re-check); and when the selection matches some orders but the re-check
leaves none, the handler shows the notice, clears the selection and makes
no call. -/
theorem handleSubmitSelected_invariants (sel : List (String × Bool))
    (orders : List BrandDailyOrderItem) (inv : List SoftInventoryItem) :
    (∀ ids, (handleSubmitSelected sel orders inv).call = some ids →
        ids ≠ [] ∧ ∀ id ∈ ids, ∃ o ∈ orders, o.id = id ∧
          checkSoftStock o.sku o.size o.color inv = false) ∧
    (ordersToSubmit sel orders ≠ [] →
      (∀ o ∈ ordersToSubmit sel orders, checkSoftStock o.sku o.size o.color inv = true) →
      handleSubmitSelected sel orders inv =
        { notice := some ("No Out-of-Stock Orders"), clearsSelection := true,
          call := none }) := by
  constructor
  · intro ids hids
    unfold handleSubmitSelected at hids
    by_cases h1 : (ordersToSubmit sel orders).length = 0
    · simp [h1] at hids
    · by_cases h2 : (actualOutOfStockOrders sel orders inv).length = 0
      · simp [h1, h2] at hids
      · simp only [h1, h2, if_neg, if_false, Option.some.injEq] at hids
        subst hids
        constructor
        · intro hnil
          exact h2 (by simp [List.map_eq_nil_iff.mp hnil])
        · intro id hid
          obtain ⟨o, ho, rfl⟩ := List.mem_map.mp hid
          have ho2 := List.mem_filter.mp ho
          have ho3 := List.mem_filter.mp ho2.1
          refine ⟨o, ho3.1, rfl, ?_⟩
          have := ho2.2
          simpa using this
  · intro h1 h2
    have hall : actualOutOfStockOrders sel orders inv = [] := by
      unfold actualOutOfStockOrders
      rw [List.filter_eq_nil_iff]
      intro o ho
      simp [h2 o ho]
    unfold handleSubmitSelected
    have h1' : ¬ (ordersToSubmit sel orders).length = 0 := by
      simpa [List.length_eq_zero] using h1
    simp [h1', hall]

/-- C9 witness: one selected, out-of-stock (empty snapshot) order leads
to a call carrying exactly that order's id, and the theorem's guarantees
hold for it. -/
theorem handleSubmitSelected_invariants_spot :
    ([("o1")] : List String) ≠ [] ∧
    ∀ id ∈ ([("o1")] : List String),
      ∃ o ∈ ([{ id := ("o1"), sku := ("A1"), color := none, size := ("M"),
                quantity := 1 }] : List BrandDailyOrderItem),
        o.id = id ∧ checkSoftStock o.sku o.size o.color [] = false :=
  (handleSubmitSelected_invariants [(("o1"), true)]
    [{ id := ("o1"), sku := ("A1"), color := none, size := ("M"), quantity := 1 }] []).1
    [("o1")] (by decide)

/-! ## C4: create-branch FormData shape -/

/-- The append loop introduces no entry under a key absent from the
payload's key list. -/
theorem formDataEntries_key_not_mem {k : String} :
    ∀ kvs : List (String × JsValue), (∀ p ∈ kvs, p.1 ≠ k) →
      entriesWithKey (formDataEntries kvs) k = [] := by
  intro kvs
  induction kvs with
  | nil => intro _; rfl
  | cons kv rest ih =>
    intro hk
    obtain ⟨k0, v⟩ := kv
    have hk0 : k0 ≠ k := hk (k0, v) (List.mem_cons_self _ _)
    have hrest := ih (fun p hp => hk p (List.mem_cons_of_mem _ hp))
    unfold formDataEntries
    unfold entriesWithKey at hrest ⊢
    rw [List.filter_append, hrest, List.append_nil]
    by_cases him : k0 == ("images")
    · simp [him]
    · simp only [him, if_neg, if_false]
      cases v with
      | strArr xs =>
        simp [List.filter_eq_nil_iff, entryKey, hk0]
      | undef => rfl
      | str s => simp [entryKey, hk0]
      | num q => simp [entryKey, hk0]
      | jsbool b => simp [entryKey, hk0]

/-- The append loop skips the `images` key, so no field entry it emits
has that key. -/
theorem formDataEntries_no_images :
    ∀ kvs : List (String × JsValue), ∀ e ∈ formDataEntries kvs,
      entryKey e ≠ ("images") := by
  intro kvs
  induction kvs with
  | nil => intro e he; simp [formDataEntries] at he
  | cons kv rest ih =>
    intro e he
    obtain ⟨k0, v⟩ := kv
    unfold formDataEntries at he
    rcases List.mem_append.mp he with hleft | hright
    · by_cases him : k0 == ("images")
      · simp [him] at hleft
      · have hk0 : k0 ≠ ("images") := by simpa using him
        simp only [him, if_neg, if_false] at hleft
        cases v with
        | strArr xs =>
          obtain ⟨x, _, rfl⟩ := List.mem_map.mp hleft
          simpa [entryKey] using hk0
        | undef => simp at hleft
        | str s => rw [List.mem_singleton.mp hleft]; simpa [entryKey] using hk0
        | num q => rw [List.mem_singleton.mp hleft]; simpa [entryKey] using hk0
        | jsbool b => rw [List.mem_singleton.mp hleft]; simpa [entryKey] using hk0
    · exact ih e hright

/-- C4: a create submission with exactly 2 newly selected files and no
existing images produces a FormData with exactly 2 entries under the
`files` key and no entry at all under the `images` key. -/
theorem createFormData_two_files_no_images (v : ProductFormValues)
    (files : List String) (hf : files.length = 2) (_hi : v.images = []) :
    (entriesWithKey (createFormData v files) ("files")).length = 2 ∧
    ∀ e ∈ createFormData v files, entryKey e ≠ ("images") := by
  constructor
  · unfold createFormData entriesWithKey
    rw [List.filter_append]
    have hfields : entriesWithKey (formDataEntries (payloadEntries v)) ("files") = [] := by
      apply formDataEntries_key_not_mem
      intro p hp
      simp only [payloadEntries, List.mem_cons, List.mem_singleton,
        List.not_mem_nil, or_false] at hp
      rcases hp with rfl | rfl | rfl | rfl | rfl | rfl | rfl | rfl | rfl | rfl | rfl <;> simp
    unfold entriesWithKey at hfields
    rw [hfields, List.nil_append]
    have : (files.map (fun f => FormEntry.fileEntry ("files") f)).filter
        (fun e => entryKey e == ("files")) =
        files.map (fun f => FormEntry.fileEntry ("files") f) := by
      rw [List.filter_eq_self]
      intro e he
      obtain ⟨f, _, rfl⟩ := List.mem_map.mp he
      simp [entryKey]
    rw [this, List.length_map, hf]
  · intro e he
    unfold createFormData at he
    rcases List.mem_append.mp he with hleft | hright
    · exact formDataEntries_no_images (payloadEntries v) e hleft
    · obtain ⟨f, _, rfl⟩ := List.mem_map.mp hright
      simp [entryKey]

/-- Concrete form values for the C4 witness. -/
def c4SampleValues : ProductFormValues :=
  { name := ("Shirt"), description := none, price := 10, categoryId := ("cat1"),
    brandId := none, sku := none, stock := 0, inStock := true,
    status := ProductStatus.draft, isFeatured := false, images := [] }

/-- C4 witness: the theorem applied to a concrete payload with two
files. -/
theorem createFormData_two_files_no_images_spot :
    (entriesWithKey (createFormData c4SampleValues [("f1"), ("f2")]) ("files")).length = 2 ∧
    ∀ e ∈ createFormData c4SampleValues [("f1"), ("f2")], entryKey e ≠ ("images") :=
  createFormData_two_files_no_images c4SampleValues [("f1"), ("f2")] (by decide) (by decide)

/-! ## C5: update-branch image ordering -/

/-- C5: when there are new files and the upload succeeds (an `OK`
response carrying a urls list), the payload handed to `updateProduct`
carries exactly the retained existing URLs, in order, followed by the
uploaded URLs in the order the upload call returned them. -/
theorem onSubmitUpdate_images_order (values : ProductFormValues)
    (existing : List String) (files : List String) (uploadResp : UploadResponse)
    (updateResp : Envelope) (urls : List String)
    (hf : files ≠ []) (ht : uploadResp.type = RespType.OK)
    (hu : uploadResp.urls = some urls) :
    ∃ payload,
      (onSubmitUpdate values existing files uploadResp updateResp).updateCall = some payload ∧
      payload.images = existing ++ urls := by
  have hl : 0 < files.length := List.length_pos.mpr hf
  unfold onSubmitUpdate
  rw [if_pos hl, ht, hu]
  by_cases h2 : updateResp.type = RespType.OK <;> simp [h2]

/-- C5 witness: one retained URL plus one uploaded URL merge in order. -/
theorem onSubmitUpdate_images_order_spot :
    ∃ payload,
      (onSubmitUpdate c4SampleValues [("http://a")] [("f1")]
        { type := RespType.OK, urls := some [("http://b")] }
        { type := RespType.OK }).updateCall = some payload ∧
      payload.images = [("http://a")] ++ [("http://b")] :=
  onSubmitUpdate_images_order c4SampleValues [("http://a")] [("f1")]
    { type := RespType.OK, urls := some [("http://b")] }
    { type := RespType.OK } [("http://b")] (by decide) (by decide) (by decide)

/-! ## C10: update-branch upload failure -/

/-- C10: with new files present, an upload response that is not `OK` or
carries no urls makes the handler throw before `updateProduct`: no update
call, the catch-block error toast fires, and there is no navigation (the
form stays populated for retry). -/
theorem onSubmitUpdate_upload_failure (values : ProductFormValues)
    (existing : List String) (files : List String) (uploadResp : UploadResponse)
    (updateResp : Envelope) (hf : files ≠ [])
    (hbad : uploadResp.type ≠ RespType.OK ∨ uploadResp.urls = none) :
    onSubmitUpdate values existing files uploadResp updateResp =
      { uploadCalled := true, updateCall := none, errorToast := true,
        navigatedAway := false } := by
  have hl : 0 < files.length := List.length_pos.mpr hf
  unfold onSubmitUpdate
  rw [if_pos hl]
  cases htype : uploadResp.type with
  | ERROR => cases hurls : uploadResp.urls <;> rfl
  | OK =>
    cases hurls : uploadResp.urls with
    | none => rfl
    | some urls =>
      rcases hbad with hbad | hbad
      · exact absurd htype hbad
      · rw [hurls] at hbad; exact absurd hbad (by simp)

/-- C10 witness: an `ERROR` upload response with one pending file yields
the thrown-before-update outcome. -/
theorem onSubmitUpdate_upload_failure_spot :
    onSubmitUpdate c4SampleValues [] [("f1")]
      { type := RespType.ERROR, message := some ("upload failed") }
      { type := RespType.OK } =
      { uploadCalled := true, updateCall := none, errorToast := true,
        navigatedAway := false } :=
  onSubmitUpdate_upload_failure c4SampleValues [] [("f1")]
    { type := RespType.ERROR, message := some ("upload failed") }
    { type := RespType.OK } (by decide) (Or.inl (by decide))

/-! ## C6: confirmed delete on the products list -/

/-- C6: on a confirmed delete, an `OK` envelope triggers a refetch of the
current page; a non-`OK` envelope or a thrown call shows the error toast,
triggers no refetch, and leaves the rendered rows and pagination exactly
as they were. -/
theorem handleConfirmDelete_outcomes (itemId : String)
    (call : Except String Envelope) (st : ProductsPageState) (dialog : Bool) :
    (∀ env, call = Except.ok env → env.type = RespType.OK →
        (handleConfirmDelete (some itemId) call st dialog).refetch =
          some (st.pagination.pageIndex + 1, st.pagination.pageSize)) ∧
    (∀ env, call = Except.ok env → env.type ≠ RespType.OK →
        (handleConfirmDelete (some itemId) call st dialog).errorToast = true ∧
        (handleConfirmDelete (some itemId) call st dialog).refetch = none ∧
        (handleConfirmDelete (some itemId) call st dialog).state = st) ∧
    (∀ msg, call = Except.error msg →
        (handleConfirmDelete (some itemId) call st dialog).errorToast = true ∧
        (handleConfirmDelete (some itemId) call st dialog).refetch = none ∧
        (handleConfirmDelete (some itemId) call st dialog).state = st) := by
  refine ⟨?_, ?_, ?_⟩
  · intro env hc ht
    subst hc
    simp [handleConfirmDelete, ht]
  · intro env hc ht
    subst hc
    simp [handleConfirmDelete, ht]
  · intro msg hc
    subst hc
    simp [handleConfirmDelete]

/-- Page state used by the C6 witness. -/
def c6State : ProductsPageState :=
  { products := [{ id := ("p1"), name := ("Shirt") }],
    pagination := { pageIndex := 2, pageSize := 10, pageCount := 4 } }

/-- C6 witness: the theorem applied to a concrete failed delete (an
`ERROR` envelope): error toast, no refetch, state untouched. -/
theorem handleConfirmDelete_outcomes_spot :
    (handleConfirmDelete (some ("p1"))
        (Except.ok { type := RespType.ERROR, message := some ("nope") })
        c6State true).errorToast = true ∧
    (handleConfirmDelete (some ("p1"))
        (Except.ok { type := RespType.ERROR, message := some ("nope") })
        c6State true).refetch = none ∧
    (handleConfirmDelete (some ("p1"))
        (Except.ok { type := RespType.ERROR, message := some ("nope") })
        c6State true).state = c6State :=
  (handleConfirmDelete_outcomes ("p1")
    (Except.ok { type := RespType.ERROR, message := some ("nope") })
    c6State true).2.1
    { type := RespType.ERROR, message := some ("nope") } rfl (by decide)

/-! ## C7: product schema validation and brandId omission -/

/-- Raw form input with the negative price of C7. -/
def c7PriceNegInput : RawProductInput :=
  { name := ("Test Product"), price := ("-5"), categoryId := ("cat1") }

/-- Raw form input with price `19.99`, a category and no brand. -/
def c7OkInput : RawProductInput :=
  { name := ("Test Product"), price := ("19.99"), categoryId := ("cat1") }

/-- The values `productSchema.parse` produces for `c7OkInput`. -/
def c7OkValues : ProductFormValues :=
  { name := ("Test Product"), description := none, price := mkRat 1999 100,
    categoryId := ("cat1"), brandId := none, sku := none, stock := 0,
    inStock := true, status := ProductStatus.draft, isFeatured := false,
    images := [] }

/-- C7: price input `-5` fails schema validation (blocking submission);
price `19.99` with a category and no brand parses, the parsed values
carry `brandId = none`, and the create-branch FormData for them contains
no entry under the `brandId` key. -/
theorem productSchema_price_and_brandId :
    productSchemaParse c7PriceNegInput = none ∧
    productSchemaParse c7OkInput = some c7OkValues ∧
    c7OkValues.brandId = none ∧
    entriesWithKey (createFormData c7OkValues []) ("brandId") = [] := by
  decide

/-! ## C8: products fetch and pagination state -/

/-- An `OK` response that carries pagination data but no products list. -/
def c8Resp : ProductsListResponse :=
  { type := RespType.OK, products := none,
    pagination := some { totalPages := 5, page := 1, pageSize := 10 } }

/-- Initial page state for the C8 counterexample. -/
def c8State : ProductsPageState :=
  { products := [], pagination := { pageIndex := 0, pageSize := 10, pageCount := 1 } }

/-- C8 counterexample: for an `OK` response carrying pagination data
(`totalPages = 5`) but no products list, `fetchData` takes its error
branch and `pageCount` keeps its old value 1 instead of being overwritten
with 5 — so the claim, which asks only for type `OK` and pagination data,
fails. -/
theorem productsFetchStep_counterexample :
    c8Resp.type = RespType.OK ∧
    c8Resp.pagination = some { totalPages := 5, page := 1, pageSize := 10 } ∧
    (productsFetchStep c8Resp c8State).1.pagination.pageCount ≠ 5 := by
  decide

/-- C8 (amended): a fetch resolution never changes `pageIndex` or
`pageSize`, and after an `OK` response carrying a products list and
pagination data, `pageCount` is overwritten with the server's
`totalPages`. -/
theorem productsFetchStep_pagination_frame (resp : ProductsListResponse)
    (st : ProductsPageState) :
    ((productsFetchStep resp st).1.pagination.pageIndex = st.pagination.pageIndex ∧
     (productsFetchStep resp st).1.pagination.pageSize = st.pagination.pageSize) ∧
    (∀ ps p, resp.type = RespType.OK → resp.products = some ps →
        resp.pagination = some p →
        (productsFetchStep resp st).1.pagination.pageCount = p.totalPages) := by
  obtain ⟨t, prods, msg, pg⟩ := resp
  constructor
  · cases t <;> cases prods <;> cases pg <;> simp [productsFetchStep]
  · intro ps p ht hp hpg
    simp only at ht hp hpg
    subst ht; subst hp; subst hpg
    simp [productsFetchStep]

/-- C8 witness: the amended theorem applied to an `OK` response carrying
both products and pagination overwrites `pageCount` with 7 and keeps
`pageIndex` and `pageSize`. -/
theorem productsFetchStep_pagination_frame_spot :
    ((productsFetchStep
        { type := RespType.OK, products := some [],
          pagination := some { totalPages := 7, page := 1, pageSize := 10 } }
        c8State).1.pagination.pageIndex = c8State.pagination.pageIndex ∧
     (productsFetchStep
        { type := RespType.OK, products := some [],
          pagination := some { totalPages := 7, page := 1, pageSize := 10 } }
        c8State).1.pagination.pageSize = c8State.pagination.pageSize) ∧
    (productsFetchStep
        { type := RespType.OK, products := some [],
          pagination := some { totalPages := 7, page := 1, pageSize := 10 } }
        c8State).1.pagination.pageCount = 7 :=
  ⟨(productsFetchStep_pagination_frame
      { type := RespType.OK, products := some [],
        pagination := some { totalPages := 7, page := 1, pageSize := 10 } }
      c8State).1,
   (productsFetchStep_pagination_frame
      { type := RespType.OK, products := some [],
        pagination := some { totalPages := 7, page := 1, pageSize := 10 } }
      c8State).2 [] { totalPages := 7, page := 1, pageSize := 10 } rfl rfl rfl⟩
